import Mathlib

/-!
Verification of the core logic of `rd3dgui.py` (RD3D_calc RADDOSE-3D GUI).

The embedding models Python strings as `List Char` (named `Line`), real
numbers as exact rationals `ℚ`, file contents as their list of lines (each
line carrying its trailing newline character, as produced by Python's
`readlines`), and external effects (filesystem, network, subprocess) as
explicit oracle functions or explicit arguments.  Every definition is
translated from the source file `rd3dgui.py`; source line numbers are cited
in the doc comments.
-/

/-- A Python string, modelled as its list of characters. -/
abbrev Line := List Char

/-- The character list of a Lean string literal. -/
def strL (s : String) : Line := s.data

/-- Python `line.startswith(pre)` (`str.startswith`). -/
def startswith (line pre : Line) : Bool := List.isPrefixOf pre line

/-- Python `path.endswith(suf)` (`str.endswith`). -/
def endswith (path suf : Line) : Bool := List.isSuffixOf suf path

/-- Python `os.path.join(a, b)` for POSIX paths: an absolute second
component replaces the first, otherwise the components are joined with a
single separator. -/
def osPathJoin (a b : Line) : Line :=
  if startswith b (strL "/") then b
  else if a = [] then b
  else if endswith a (strL "/") then a ++ b
  else a ++ '/' :: b

/-! ### Template patcher: `rd3d_replaceLine` (rd3dgui.py lines 90-105)

The Python function reads all lines of the file, rewrites the file writing
`replaceExp` in place of every line that starts with `searchExp` and every
other line verbatim, and finally raises a `ValueError` naming `searchExp`
when no line matched. -/

/-- The list of lines written back to the file by `rd3d_replaceLine`
(the body of the `for line in lines` loop, lines 97-101): each line that
starts with `searchExp` is replaced by `replaceExp`, all others are written
unchanged. -/
def replaceLineWrite (lines : List Line) (searchExp replaceExp : Line) : List Line :=
  lines.map fun line => if startswith line searchExp then replaceExp else line

/-- The `found` flag of `rd3d_replaceLine` (lines 91-100). -/
def replaceLineFound (lines : List Line) (searchExp : Line) : Bool :=
  lines.any fun line => startswith line searchExp

/-- The `ValueError` message raised when `searchExp` is not found
(line 105). -/
def replaceErrMsg (searchExp : Line) : Line :=
  strL "'" ++ searchExp ++
    strL "' not found in the template file. Please use a template file that contains a line with '" ++
    searchExp ++ strL "'"

/-- `rd3d_replaceLine(file, searchExp, replaceExp)` (lines 90-105),
modelled on the file's content: returns the rewritten content, or the
`ValueError` message when no line starts with `searchExp`.  (In the failure
case the Python code has already rewritten the file with
`replaceLineWrite`, which then equals the original content.) -/
def rd3d_replaceLine (lines : List Line) (searchExp replaceExp : Line) :
    Except Line (List Line) :=
  if replaceLineFound lines searchExp then
    .ok (replaceLineWrite lines searchExp replaceExp)
  else
    .error (replaceErrMsg searchExp)

/-! ### PDB resolver: `verify_pdb_file`, `verify_pdb_code` and the
resolution step of `rd3d_calc4` (rd3dgui.py lines 107-145 and 246-255) -/

/-- `verify_pdb_file(file_path)` (lines 107-132): the path must end in
`'.pdb'`, name an existing file, and be openable.  The filesystem is
abstracted by the oracles `isFile` (`os.path.isfile`) and `openOk`
(whether `open(file_path, 'r')` succeeds). -/
def verify_pdb_file (isFile openOk : Line → Bool) (file_path : Line) : Bool :=
  endswith file_path (strL ".pdb") && (isFile file_path && openOk file_path)

/-- `verify_pdb_code(pdb_code)` (lines 134-145): performs
`requests.get("https://files.rcsb.org/view/{pdb_code}.pdb")` and reports
whether the status code is 200.  The network is abstracted by the oracle
`codeOk`; the function makes the request for any input string, with no
check on its length or form. -/
def verify_pdb_code (codeOk : Line → Bool) (pdb_code : Line) : Bool :=
  codeOk pdb_code

/-- The structure reference chosen for the generated input file. -/
inductive StructureRef where
  | localFile (path : Line)
  | registryCode (code : Line)
  | fallbackDefault
deriving DecidableEq

/-- Result of the PDB resolution step: the chosen reference, together with
whether the network existence check (`verify_pdb_code`) was performed. -/
structure PdbResolution where
  ref : StructureRef
  networkChecked : Bool
deriving DecidableEq

/-- The PDB resolution step of `rd3d_calc4` (lines 246-255):
`pdb_file = os.path.join(binDir, pdb)`; if `verify_pdb_file(pdb_file)`
use the local file; `elif verify_pdb_code(pdb)` use the registry code;
else fall back to the bundled `2vb1.pdb`.  The `elif` evaluates
`verify_pdb_code` — a network request — whenever the first branch fails,
so `networkChecked` is true in both remaining branches. -/
def rd3d_resolve_pdb (isFile openOk codeOk : Line → Bool) (binDir pdb : Line) :
    PdbResolution :=
  let pdb_file := osPathJoin binDir pdb
  if verify_pdb_file isFile openOk pdb_file then ⟨.localFile pdb_file, false⟩
  else if verify_pdb_code codeOk pdb then ⟨.registryCode pdb, true⟩
  else ⟨.fallbackDefault, true⟩

/-- The `PDB` line patched into the input file in each resolution branch
(lines 248, 251, 255). -/
def pdbReplacementLine (binDir : Line) (ref : StructureRef) : Line :=
  match ref with
  | .localFile path => strL "PDB " ++ path ++ strL "\n"
  | .registryCode code => strL "PDB " ++ code ++ strL "\n"
  | .fallbackDefault => strL "PDB " ++ osPathJoin binDir (strL "2vb1.pdb") ++ strL "\n"

/-! ### Python numeric formatting (the f-string conversions used in
`rd3d_calc4`, rd3dgui.py lines 232-243)

Real numbers are embedded as exact rationals, so the format conversions
`{:.Nf}` and `{:.2e}` are modelled as exact decimal rendering of a
rational with round-half-to-even, computed from the reduced
numerator/denominator with natural-number arithmetic. -/

/-- Decimal digit characters of a natural number, most significant first. -/
def digitsL (n : ℕ) : Line := Nat.toDigits 10 n

/-- Round `t / b` to the nearest integer, ties to even
(the rounding used by Python's fixed-point float formatting). -/
def rheDiv (t b : ℕ) : ℕ :=
  let f := t / b
  let rem := t % b
  if 2 * rem < b then f
  else if b < 2 * rem then f + 1
  else if f % 2 = 0 then f else f + 1

/-- Pad a digit string with leading `'0'` to a minimum length. -/
def padZero (l : Line) (n : ℕ) : Line := List.replicate (n - l.length) '0' ++ l

/-- Python `f'{q:.df}'`: fixed-point rendering with `d` decimals. -/
def fmtFixed (d : ℕ) (q : ℚ) : Line :=
  let sign : Line := if q.num < 0 then strL "-" else []
  let n := rheDiv (q.num.natAbs * 10 ^ d) q.den
  let ds := padZero (digitsL n) (d + 1)
  sign ++ ds.take (ds.length - d) ++ (if d = 0 then [] else '.' :: ds.drop (ds.length - d))

/-- Smallest `k ≥ 1` with `a * 10 ^ k ≥ b`, for `0 < a < b`
(fuel-bounded; `fuel = (digitsL b).length` always suffices). -/
def sciKAux : ℕ → ℕ → ℕ → ℕ
  | 0, _, _ => 1
  | fuel + 1, a, b => if b ≤ a * 10 then 1 else 1 + sciKAux fuel (a * 10) b

/-- Mantissa (scaled by 100) and decimal exponent of `a / b` (`a, b > 0`). -/
def sciParts (a b : ℕ) : ℕ × ℤ :=
  if b ≤ a then
    let e := (digitsL (a / b)).length - 1
    (rheDiv (a * 100) (b * 10 ^ e), (e : ℤ))
  else
    let k := sciKAux (digitsL b).length a b
    (rheDiv (a * 10 ^ k * 100) b, -(k : ℤ))

/-- Python `f'{q:.2e}'`: scientific notation with two decimals. -/
def fmtSci2 (q : ℚ) : Line :=
  if q.num = 0 then strL "0.00e+00"
  else
    let sign : Line := if q.num < 0 then strL "-" else []
    let p := sciParts q.num.natAbs q.den
    let n := if 1000 ≤ p.1 then 100 else p.1
    let e := if 1000 ≤ p.1 then p.2 + 1 else p.2
    let ds := padZero (digitsL n) 3
    let esign : Line := if e < 0 then strL "-" else strL "+"
    sign ++ ds.take (ds.length - 2) ++ '.' :: ds.drop (ds.length - 2) ++
      'e' :: (esign ++ padZero (digitsL e.natAbs) 2)

/-! ### The `rd3d_calc4` template patch sequence (rd3dgui.py lines 147-255)

`rd3d_calc4` copies the template to the input file and then performs one
`rd3d_replaceLine` call per directive, in source order (lines 232-243),
followed by the `PDB` patch of the resolution step (lines 246-255). -/

/-- The parameters of `rd3d_calc4` that are rendered into the input file
(signature at lines 147-157).  `beamType` is a string; all numeric
parameters are rationals. -/
structure Rd3dCalcParams where
  flux : ℚ
  energy : ℚ
  beamType : Line
  fwhmX : ℚ
  fwhmY : ℚ
  collimationX : ℚ
  collimationY : ℚ
  wedge : ℚ
  exposureTime : ℚ
  translatePerDegX : ℚ
  translatePerDegY : ℚ
  translatePerDegZ : ℚ
  startOffsetX : ℚ
  startOffsetY : ℚ
  startOffsetZ : ℚ
  dimX : ℚ
  dimY : ℚ
  dimZ : ℚ
  pixelsPerMicron : ℚ
  angularResolution : ℚ

/-- The `(searchExp, replaceExp)` pairs of the thirteen `rd3d_replaceLine`
calls of `rd3d_calc4`, in source order (lines 232-243 and the `PDB` patch
of lines 246-255, whose replacement line `pdbLine` is
`pdbReplacementLine binDir ref` for the resolved reference).  Note the
third pair: the search keyword is the literal `"TYPE GAUSSIAN"`
(line 234), and the `WEDGE` replacement hard-codes a `0` start angle
(line 237). -/
def calc4Patches (p : Rd3dCalcParams) (pdbLine : Line) : List (Line × Line) :=
  [ (strL "FLUX", strL "FLUX " ++ fmtSci2 p.flux ++ strL "\n"),
    (strL "ENERGY", strL "ENERGY " ++ fmtFixed 2 p.energy ++ strL "\n"),
    (strL "TYPE GAUSSIAN", strL "TYPE " ++ p.beamType ++ strL "\n"),
    (strL "FWHM", strL "FWHM " ++ fmtFixed 1 p.fwhmX ++ strL " " ++ fmtFixed 1 p.fwhmY ++ strL "\n"),
    (strL "COLLIMATION", strL "COLLIMATION RECTANGULAR " ++ fmtFixed 1 p.collimationX ++ strL " " ++ fmtFixed 1 p.collimationY ++ strL "\n"),
    (strL "WEDGE", strL "WEDGE 0 " ++ fmtFixed 1 p.wedge ++ strL "\n"),
    (strL "EXPOSURETIME", strL "EXPOSURETIME " ++ fmtFixed 3 p.exposureTime ++ strL "\n"),
    (strL "TRANSLATEPERDEGREE", strL "TRANSLATEPERDEGREE " ++ fmtFixed 4 p.translatePerDegX ++ strL " " ++ fmtFixed 4 p.translatePerDegY ++ strL " " ++ fmtFixed 4 p.translatePerDegZ ++ strL "\n"),
    (strL "DIMENSION", strL "DIMENSION " ++ fmtFixed 1 p.dimX ++ strL " " ++ fmtFixed 1 p.dimY ++ strL " " ++ fmtFixed 1 p.dimZ ++ strL "\n"),
    (strL "PIXELSPERMICRON", strL "PIXELSPERMICRON " ++ fmtFixed 1 p.pixelsPerMicron ++ strL "\n"),
    (strL "ANGULARRESOLUTION", strL "ANGULARRESOLUTION " ++ fmtFixed 1 p.angularResolution ++ strL "\n"),
    (strL "STARTOFFSET", strL "STARTOFFSET " ++ fmtFixed 6 p.startOffsetX ++ strL " " ++ fmtFixed 6 p.startOffsetY ++ strL " " ++ fmtFixed 6 p.startOffsetZ ++ strL "\n"),
    (strL "PDB", pdbLine) ]

/-- Apply a sequence of `rd3d_replaceLine` calls to the input file,
stopping at the first `ValueError` (an uncaught exception aborts
`rd3d_calc4`). -/
def applyPatches (lines : List Line) : List (Line × Line) → Except Line (List Line)
  | [] => .ok lines
  | (s, r) :: ps =>
    match rd3d_replaceLine lines s r with
    | .ok out => applyPatches out ps
    | .error e => .error e

/-! ### The post-run step of `rd3d_calc4` (rd3dgui.py lines 260-272)

After `subprocess.run` returns, the code logs and optionally prints
`prc.stdout` and then calls `np.genfromtxt` on the summary output file
unconditionally: `prc.returncode` is never inspected, and
`subprocess.run` is not given `check=True`, so a non-zero exit status of
the external simulator raises nothing. -/

/-- The one-row summary table parsed from `rd3d_Summary.csv`. -/
structure SummaryRow where
  averageDWD : ℚ
  maxDose : ℚ
deriving DecidableEq

/-- Outcome of the post-run phase of `rd3d_calc4`. -/
inductive CalcOutcome where
  | parsed (row : SummaryRow)
  | readError
deriving DecidableEq

/-- The post-run phase of `rd3d_calc4` (lines 260-272), as a function of
the exit status of the external process and of the (possibly stale or
absent) summary file: the exit status is ignored and the summary file is
parsed whenever it exists; `np.genfromtxt` raises only when the file is
absent. -/
def rd3d_calc4_afterRun (returncode : ℤ) (summaryFile : Option SummaryRow) :
    CalcOutcome :=
  match summaryFile with
  | some row => .parsed row
  | none => .readError

/-! ### Derivation layer: `fmx_dose4` (rd3dgui.py lines 294-436)

`fmx_dose4` converts the user-facing collection parameters into the
native parameter set passed to `rd3d_calc4` (lines 384-436).  The
flux-at-sample live source (`get_flux_at_sample`, used when `flux == -1`)
is abstracted by the explicit argument `fluxPV`. -/

/-- The user parameters of `fmx_dose4` (signature at lines 294-302). -/
structure FmxParams where
  flux : ℚ
  energy : ℚ
  beamsizeV : ℚ
  beamsizeH : ℚ
  xtalSizeV : ℚ
  xtalSizeB : ℚ
  oscRange : ℚ
  oscWidth : ℚ
  exposureTimeFrame : ℚ
  vectorL : ℚ

/-- The `pixelsPerMicron` selection of `fmx_dose4` (lines 390-396):
an `or` across the two raw beam axes at each threshold. -/
def fmxPixelsPerMicron (fwhmX fwhmY : ℚ) : ℚ :=
  if fwhmX < 1.5 ∨ fwhmY < 1.5 then 2
  else if fwhmX < 3.0 ∨ fwhmY < 3.0 then 1
  else 0.5

/-- The parameter derivation of `fmx_dose4` (lines 384-436), producing the
`Rd3dCalcParams` with which `rd3d_calc4` is invoked (call at lines
424-436; `translatePerDegX = 0` is passed explicitly, and
`translatePerDegZ`, `startOffsetX`, `startOffsetZ`, `beamType` and
`angularResolution` keep the `rd3d_calc4` defaults `0`, `0`, `0`,
`'GAUSSIAN'` and `2`). -/
def fmx_dose4_derive (u : FmxParams) (fluxPV : ℚ) : Rd3dCalcParams :=
  let fwhmX := u.beamsizeV
  let fwhmY := u.beamsizeH
  let fluxSample := if u.flux = -1 then fluxPV else u.flux
  let dimX := if u.xtalSizeV = -1 then u.beamsizeV else u.xtalSizeV
  { flux := fluxSample
    energy := u.energy
    beamType := strL "GAUSSIAN"
    fwhmX := fwhmX
    fwhmY := fwhmY
    collimationX := 3 * u.beamsizeV
    collimationY := 3 * u.beamsizeH
    wedge := u.oscRange
    exposureTime := u.exposureTimeFrame * u.oscRange / u.oscWidth
    translatePerDegX := 0
    translatePerDegY := u.vectorL / u.oscRange
    translatePerDegZ := 0
    startOffsetX := 0
    startOffsetY := -u.vectorL / 2
    startOffsetZ := 0
    dimX := dimX
    dimY := u.vectorL + u.beamsizeH
    dimZ := if u.xtalSizeB = -1 then dimX else u.xtalSizeB
    pixelsPerMicron := fmxPixelsPerMicron fwhmX fwhmY
    angularResolution := 2 }

/-! ### Histogram parser: `rd3d_parse_dose_histogram`
(rd3dgui.py lines 807-829)

The Python code runs `re.findall` with the pattern
`Bin\s+(\d+),\s+([\d.]+)\s+(?:to\s+([\d.]+)\s+MGy|MGy upwards):\s+([\d.]+)`
over the whole file text and converts each match tuple to a
`(bin, range, percentage)` record.  The pattern's character classes are
pairwise disjoint at every juncture, so the greedy left-to-right matcher
below is equivalent to the backtracking regex engine on this pattern.
`\s` is modelled by Python's ASCII whitespace class. -/

/-- Python's regex class `\s` (ASCII range). -/
def isPySpace (c : Char) : Bool :=
  c == ' ' || c == '\t' || c == '\n' || c == '\r' || c == '\x0b' || c == '\x0c'

/-- The regex class `\d` (ASCII range). -/
def isPyDigit (c : Char) : Bool := '0' ≤ c && c ≤ '9'

/-- The regex class `[\d.]`. -/
def isNumChar (c : Char) : Bool := isPyDigit c || c == '.'

/-- Consume an exact literal, returning the rest of the input. -/
def litTok : Line → Line → Option Line
  | [], l => some l
  | _ :: _, [] => none
  | c :: p, d :: l => if c == d then litTok p l else none

/-- Consume one-or-more characters of a class (greedy `X+`), returning the
consumed run and the rest of the input. -/
def takeWhile1 (p : Char → Bool) (l : Line) : Option (Line × Line) :=
  let t := l.takeWhile p
  if t.isEmpty then none else some (t, l.dropWhile p)

/-- Consume `\s+` (greedy). -/
def wsTok (l : Line) : Option Line := (takeWhile1 isPySpace l).map (·.2)

/-- One match of the histogram bin pattern: the four capture groups
(`g3 = none` models the unmatched middle group of the `MGy upwards`
alternative, which Python reports as the empty string `''`). -/
structure RawMatch where
  g1 : Line
  g2 : Line
  g3 : Option Line
  g4 : Line
deriving DecidableEq

/-- The alternation `(?:to\s+([\d.]+)\s+MGy|MGy upwards)`: the first
alternative is tried first; the two alternatives start with distinct
mandatory characters, so no backtracking across this choice can occur. -/
def matchMid (l : Line) : Option (Option Line × Line) :=
  match (do
      let l1 ← litTok (strL "to") l
      let l2 ← wsTok l1
      let (g3, l3) ← takeWhile1 isNumChar l2
      let l4 ← wsTok l3
      let l5 ← litTok (strL "MGy") l4
      pure (some g3, l5) : Option (Option Line × Line)) with
  | some r => some r
  | none => (litTok (strL "MGy upwards") l).map fun l5 => (none, l5)

/-- Try to match the full bin pattern at the head of the input, returning
the capture groups and the input remaining after the match. -/
def matchBin (l : Line) : Option (RawMatch × Line) := do
  let l1 ← litTok (strL "Bin") l
  let l2 ← wsTok l1
  let (g1, l3) ← takeWhile1 isPyDigit l2
  let l4 ← litTok (strL ",") l3
  let l5 ← wsTok l4
  let (g2, l6) ← takeWhile1 isNumChar l5
  let l7 ← wsTok l6
  let (g3, l8) ← matchMid l7
  let l9 ← litTok (strL ":") l8
  let l10 ← wsTok l9
  let (g4, l11) ← takeWhile1 isNumChar l10
  pure (⟨g1, g2, g3, g4⟩, l11)

/-- `re.findall` over the whole text: scan left to right, collecting
non-overlapping matches and resuming after each match (fuel-bounded;
`fuel = text.length` always suffices since every match consumes at least
one character). -/
def findAllBins : ℕ → Line → List RawMatch
  | 0, _ => []
  | _, [] => []
  | fuel + 1, c :: cs =>
    match matchBin (c :: cs) with
    | some (m, rest) => m :: findAllBins fuel rest
    | none => findAllBins fuel cs

/-- One parsed histogram bin (`dt` at line 816). -/
structure HistBin where
  bin : ℕ
  range : Line
  percentage : ℚ
deriving DecidableEq

/-- Python `int` on a digit string. -/
def parseNat (l : Line) : ℕ :=
  l.foldl (fun a c => 10 * a + (c.toNat - 48)) 0

/-- Split a `[\d.]+` token at the dots. -/
def splitDots : Line → List Line
  | [] => [[]]
  | c :: cs =>
    match splitDots cs with
    | [] => [[]]
    | r :: rs => if c == '.' then [] :: r :: rs else (c :: r) :: rs

/-- Python `float` on a `[\d.]+` token: at most one dot, not a lone dot
(`float('1.2.3')` and `float('.')` raise `ValueError`). -/
def parseFloat (l : Line) : Option ℚ :=
  match splitDots l with
  | [i] => some (parseNat i)
  | [i, f] =>
    if i.isEmpty && f.isEmpty then none
    else some ((parseNat i : ℚ) + (parseNat f : ℚ) / (10 : ℚ) ^ f.length)
  | _ => none

/-- The `bin_range` string built for one match (lines 822-825). -/
def rangeOf (m : RawMatch) : Line :=
  match m.g3 with
  | some b => m.g2 ++ strL " to " ++ b
  | none => m.g2 ++ strL " upwards"

/-- One row of the structured array (line 827); `none` when `float` on the
percentage group raises. -/
def binEntryOf (m : RawMatch) : Option HistBin :=
  (parseFloat m.g4).map fun p => ⟨parseNat m.g1, rangeOf m, p⟩

/-- The conversion loop over all matches (lines 821-827). -/
def binEntries : List RawMatch → Option (List HistBin)
  | [] => some []
  | m :: ms =>
    match binEntryOf m, binEntries ms with
    | some e, some es => some (e :: es)
    | _, _ => none

/-- `rd3d_parse_dose_histogram` (lines 807-829) on the file's text:
`re.findall` over the whole text followed by the conversion loop; `none`
models the uncaught `ValueError` of a failing `float` conversion. -/
def rd3d_parse_dose_histogram (text : Line) : Option (List HistBin) :=
  binEntries (findAllBins text.length text)

/-- Python `text.split('\n')`, used to state what a line-oriented parser
would see (the source parser is not line-oriented). -/
def splitNl : Line → List Line
  | [] => [[]]
  | c :: cs =>
    match splitNl cs with
    | [] => [[]]
    | r :: rs => if c == '\n' then [] :: r :: rs else (c :: r) :: rs

/-- Decidable equality for `Except` results of the patch pipeline. -/
instance exceptDecEq {ε α : Type} [DecidableEq ε] [DecidableEq α] :
    DecidableEq (Except ε α) := fun x y =>
  match x, y with
  | .ok a, .ok b =>
    if h : a = b then .isTrue (by rw [h]) else .isFalse (by simp [h])
  | .error a, .error b =>
    if h : a = b then .isTrue (by rw [h]) else .isFalse (by simp [h])
  | .ok _, .error _ => .isFalse (by simp)
  | .error _, .ok _ => .isFalse (by simp)

/-- Auxiliary: `replaceLineFound` is false exactly when no line starts
with the keyword. -/
theorem replaceLineFound_eq_false {lines : List Line} {s : Line}
    (h : replaceLineFound lines s = false) :
    ∀ l ∈ lines, startswith l s = false := by
  intro l hl
  have := (List.any_eq_false).mp h l hl
  simpa using this

/-- C1 counterexample: on a file whose first two lines both start with the
keyword, a single `rd3d_replaceLine` call replaces *both* lines, so the
second line is not left byte-identical as the claim requires. -/
theorem C1_counterexample :
    rd3d_replaceLine [strL "FLUX 1\n", strL "FLUX 2\n"] (strL "FLUX") (strL "FLUX 9.9\n") =
      .ok [strL "FLUX 9.9\n", strL "FLUX 9.9\n"] ∧
    strL "FLUX 9.9\n" ≠ strL "FLUX 2\n" := by decide

/-- C1 (amended): for every template file containing at least one line
that starts with the keyword, a single `rd3d_replaceLine` call succeeds
and writes back a file of the same length in which every line whose
content starts with the keyword (in particular exactly the first one when
only one matches) is replaced by the replacement line and every other line
is byte-identical to the original; the re-read file equals this expected
patched text regardless of file length. -/
theorem C1_template_patcher_patch (lines : List Line) (s r : Line)
    (h : replaceLineFound lines s = true) :
    ∃ out, rd3d_replaceLine lines s r = .ok out ∧
      out.length = lines.length ∧
      ∀ i (hi : i < lines.length) (ho : i < out.length),
        (startswith lines[i] s = true → out[i] = r) ∧
        (startswith lines[i] s = false → out[i] = lines[i]) := by
  refine ⟨replaceLineWrite lines s r, by simp [rd3d_replaceLine, h], by simp [replaceLineWrite], ?_⟩
  intro i hi ho
  constructor <;> intro hsw <;> simp [replaceLineWrite, hsw]

/-- C1 witness: a two-line file with one matching line. -/
theorem C1_witness :
    replaceLineFound [strL "COMMENT\n", strL "FLUX 1\n"] (strL "FLUX") = true ∧
    (∃ out, rd3d_replaceLine [strL "COMMENT\n", strL "FLUX 1\n"] (strL "FLUX") (strL "FLUX 2.0\n") = .ok out ∧
      out.length = [strL "COMMENT\n", strL "FLUX 1\n"].length ∧
      ∀ i (hi : i < [strL "COMMENT\n", strL "FLUX 1\n"].length) (ho : i < out.length),
        (startswith [strL "COMMENT\n", strL "FLUX 1\n"][i] (strL "FLUX") = true → out[i] = strL "FLUX 2.0\n") ∧
        (startswith [strL "COMMENT\n", strL "FLUX 1\n"][i] (strL "FLUX") = false → out[i] = [strL "COMMENT\n", strL "FLUX 1\n"][i])) :=
  ⟨by decide, C1_template_patcher_patch _ _ _ (by decide)⟩

/-- C2 (confirmed): patching a keyword absent from the file fails with the
`ValueError` whose message names that keyword (the keyword occurs in the
message), and the content written back to the file is unchanged from
before the call. -/
theorem C2_missing_keyword_fails (lines : List Line) (s r : Line)
    (h : replaceLineFound lines s = false) :
    rd3d_replaceLine lines s r = .error (replaceErrMsg s) ∧
    replaceLineWrite lines s r = lines ∧
    List.IsInfix s (replaceErrMsg s) := by
  refine ⟨by simp [rd3d_replaceLine, h], ?_, ?_⟩
  · have hall := replaceLineFound_eq_false h
    calc replaceLineWrite lines s r
        = lines.map id := List.map_congr_left (by intro l hl; simp [hall l hl])
      _ = lines := List.map_id lines
  · exact ⟨strL "'",
      strL "' not found in the template file. Please use a template file that contains a line with '" ++ s ++ strL "'",
      by simp [replaceErrMsg]⟩

/-- C2 witness: a template with only an ENERGY line, patched for FLUX. -/
theorem C2_witness :
    replaceLineFound [strL "ENERGY 12.66\n"] (strL "FLUX") = false ∧
    (rd3d_replaceLine [strL "ENERGY 12.66\n"] (strL "FLUX") (strL "FLUX 4.00e+12\n") = .error (replaceErrMsg (strL "FLUX")) ∧
      replaceLineWrite [strL "ENERGY 12.66\n"] (strL "FLUX") (strL "FLUX 4.00e+12\n") = [strL "ENERGY 12.66\n"] ∧
      List.IsInfix (strL "FLUX") (replaceErrMsg (strL "FLUX"))) :=
  ⟨by decide, C2_missing_keyword_fails _ _ _ (by decide)⟩

/-- C3 (code bug): the post-run phase of `rd3d_calc4` ignores the exit
status of the external simulator process: for any exit status — in
particular the failing status 1 — with a (possibly stale) summary file
present, the summary is parsed and returned instead of a run failure
being surfaced.  This contradicts the claim that a non-zero exit status
surfaces a run failure without parsing the output file. -/
theorem C3_nonzero_exit_still_parses (row : SummaryRow) :
    rd3d_calc4_afterRun 1 (some row) = .parsed row ∧
    ∀ returncode : ℤ, rd3d_calc4_afterRun returncode (some row) =
      rd3d_calc4_afterRun 0 (some row) := by
  exact ⟨rfl, fun _ => rfl⟩

/-- C4 counterexample: for the reference `"model.txt"` (joined path does
not end in `.pdb`), the resolution step *does* perform the network
existence check, contradicting the claim that it is never performed and
that the step falls through to the default without it; and with a network
oracle answering yes, the registry branch is taken for the reference
`"somelongname"`, which is not a 4-character code. -/
theorem C4_counterexample :
    (endswith (osPathJoin (strL "/app/rd3d_bin") (strL "model.txt")) (strL ".pdb") = false ∧
      (rd3d_resolve_pdb (fun _ => true) (fun _ => true) (fun _ => false)
        (strL "/app/rd3d_bin") (strL "model.txt")).networkChecked = true) ∧
    (rd3d_resolve_pdb (fun _ => true) (fun _ => true) (fun _ => true)
      (strL "/app/rd3d_bin") (strL "somelongname")).ref =
        .registryCode (strL "somelongname") := by decide

/-- C4 (amended): for every structure reference whose path joined under
the binary directory does not end in `.pdb`, the local-file branch is
never taken and the network existence check *is* always performed, with
the raw reference and regardless of its length or form; the reference is
used as a registry code exactly when that check succeeds, and otherwise
the resolution falls back to the bundled default. -/
theorem C4_non_pdb_reference (isFile openOk codeOk : Line → Bool) (binDir pdb : Line)
    (h : endswith (osPathJoin binDir pdb) (strL ".pdb") = false) :
    rd3d_resolve_pdb isFile openOk codeOk binDir pdb =
      (if codeOk pdb then ⟨.registryCode pdb, true⟩ else ⟨.fallbackDefault, true⟩) := by
  have hv : verify_pdb_file isFile openOk (osPathJoin binDir pdb) = false := by
    simp [verify_pdb_file, h]
  simp [rd3d_resolve_pdb, hv, verify_pdb_code]

/-- C4 witness: the non-`.pdb` reference `"model.txt"` with an
all-failing network oracle resolves to the bundled default. -/
theorem C4_witness :
    endswith (osPathJoin (strL "/app/rd3d_bin") (strL "model.txt")) (strL ".pdb") = false ∧
    rd3d_resolve_pdb (fun _ => false) (fun _ => false) (fun _ => false)
      (strL "/app/rd3d_bin") (strL "model.txt") =
      (if (fun _ => false : Line → Bool) (strL "model.txt") then
        ⟨.registryCode (strL "model.txt"), true⟩ else ⟨.fallbackDefault, true⟩) :=
  ⟨by decide, C4_non_pdb_reference _ _ _ _ _ (by decide)⟩

/-- C5 (confirmed): the derived pixels-per-micron is 2 when either raw
beam axis is below 1.5 µm, else 1 when either raw axis is below 3.0 µm,
else 0.5 — an `or` across the two raw beam axes exactly as in the source
(lines 390-396), evaluated on the raw `beamsizeV`/`beamsizeH` values. -/
theorem C5_pixelsPerMicron_thresholds (u : FmxParams) (fluxPV : ℚ) :
    ((u.beamsizeV < 1.5 ∨ u.beamsizeH < 1.5) →
      (fmx_dose4_derive u fluxPV).pixelsPerMicron = 2) ∧
    (¬ (u.beamsizeV < 1.5 ∨ u.beamsizeH < 1.5) →
      (u.beamsizeV < 3.0 ∨ u.beamsizeH < 3.0) →
      (fmx_dose4_derive u fluxPV).pixelsPerMicron = 1) ∧
    (¬ (u.beamsizeV < 3.0 ∨ u.beamsizeH < 3.0) →
      (fmx_dose4_derive u fluxPV).pixelsPerMicron = 0.5) := by
  refine ⟨fun h1 => ?_, fun h1 h2 => ?_, fun h2 => ?_⟩
  · simp [fmx_dose4_derive, fmxPixelsPerMicron, h1]
  · simp [fmx_dose4_derive, fmxPixelsPerMicron, h1, h2]
  · have h1 : ¬ (u.beamsizeV < 1.5 ∨ u.beamsizeH < 1.5) := by
      push_neg at h2 ⊢
      exact ⟨le_trans (by norm_num) h2.1, le_trans (by norm_num) h2.2⟩
    simp [fmx_dose4_derive, fmxPixelsPerMicron, h1, h2]

/-- C5 witness: beam sizes 1.0 × 2.0 µm give 2 px/µm (the vertical axis
is below 1.5 although the horizontal one is not). -/
theorem C5_witness :
    ((⟨4e12, 12.66, 1.0, 2.0, -1, -1, 180, 0.1, 0.01, 50⟩ : FmxParams).beamsizeV < 1.5 ∨
      (⟨4e12, 12.66, 1.0, 2.0, -1, -1, 180, 0.1, 0.01, 50⟩ : FmxParams).beamsizeH < 1.5) ∧
    (fmx_dose4_derive ⟨4e12, 12.66, 1.0, 2.0, -1, -1, 180, 0.1, 0.01, 50⟩ 0).pixelsPerMicron = 2 :=
  ⟨by norm_num, (C5_pixelsPerMicron_thresholds _ 0).1 (by norm_num)⟩

/-- C6 (confirmed): for oscillation range > 0, the translation rate along
the vector axis times the oscillation range equals the vector length, and
the translation rates on the other two axes are zero. -/
theorem C6_translation_rate (u : FmxParams) (fluxPV : ℚ) (h : 0 < u.oscRange) :
    (fmx_dose4_derive u fluxPV).translatePerDegY * u.oscRange = u.vectorL ∧
    (fmx_dose4_derive u fluxPV).translatePerDegX = 0 ∧
    (fmx_dose4_derive u fluxPV).translatePerDegZ = 0 := by
  refine ⟨?_, rfl, rfl⟩
  show u.vectorL / u.oscRange * u.oscRange = u.vectorL
  exact div_mul_cancel₀ _ (ne_of_gt h)

/-- C6 witness: vector length 50 µm over 180° gives a rate whose product
with the range is 50. -/
theorem C6_witness :
    (0 : ℚ) < (⟨4e12, 12.66, 1.0, 2.0, -1, -1, 180, 0.1, 0.01, 50⟩ : FmxParams).oscRange ∧
    ((fmx_dose4_derive ⟨4e12, 12.66, 1.0, 2.0, -1, -1, 180, 0.1, 0.01, 50⟩ 0).translatePerDegY *
        (⟨4e12, 12.66, 1.0, 2.0, -1, -1, 180, 0.1, 0.01, 50⟩ : FmxParams).oscRange =
        (⟨4e12, 12.66, 1.0, 2.0, -1, -1, 180, 0.1, 0.01, 50⟩ : FmxParams).vectorL ∧
      (fmx_dose4_derive ⟨4e12, 12.66, 1.0, 2.0, -1, -1, 180, 0.1, 0.01, 50⟩ 0).translatePerDegX = 0 ∧
      (fmx_dose4_derive ⟨4e12, 12.66, 1.0, 2.0, -1, -1, 180, 0.1, 0.01, 50⟩ 0).translatePerDegZ = 0) :=
  ⟨by norm_num, C6_translation_rate _ 0 (by norm_num)⟩

/-- C7 (confirmed): the end-to-end derivation scenario of the spec — for
user parameters flux 4e12, energy 12.66, beam 1.0 × 2.0, crystal sizes −1,
range 180°, width 0.1°, 0.01 s/frame, vector 50 µm — yields exactly the
eleven native values listed in the claim (independently of the live flux
source, which is not consulted since flux ≠ −1). -/
theorem C7_end_to_end_derivation (fluxPV : ℚ) :
    (fmx_dose4_derive ⟨4e12, 12.66, 1.0, 2.0, -1, -1, 180, 0.1, 0.01, 50⟩ fluxPV).fwhmX = 1.0 ∧
    (fmx_dose4_derive ⟨4e12, 12.66, 1.0, 2.0, -1, -1, 180, 0.1, 0.01, 50⟩ fluxPV).fwhmY = 2.0 ∧
    (fmx_dose4_derive ⟨4e12, 12.66, 1.0, 2.0, -1, -1, 180, 0.1, 0.01, 50⟩ fluxPV).collimationX = 3.0 ∧
    (fmx_dose4_derive ⟨4e12, 12.66, 1.0, 2.0, -1, -1, 180, 0.1, 0.01, 50⟩ fluxPV).collimationY = 6.0 ∧
    (fmx_dose4_derive ⟨4e12, 12.66, 1.0, 2.0, -1, -1, 180, 0.1, 0.01, 50⟩ fluxPV).pixelsPerMicron = 2 ∧
    (fmx_dose4_derive ⟨4e12, 12.66, 1.0, 2.0, -1, -1, 180, 0.1, 0.01, 50⟩ fluxPV).translatePerDegY = 50 / 180 ∧
    (fmx_dose4_derive ⟨4e12, 12.66, 1.0, 2.0, -1, -1, 180, 0.1, 0.01, 50⟩ fluxPV).startOffsetY = -25 ∧
    (fmx_dose4_derive ⟨4e12, 12.66, 1.0, 2.0, -1, -1, 180, 0.1, 0.01, 50⟩ fluxPV).exposureTime = 18.0 ∧
    (fmx_dose4_derive ⟨4e12, 12.66, 1.0, 2.0, -1, -1, 180, 0.1, 0.01, 50⟩ fluxPV).dimX = 1.0 ∧
    (fmx_dose4_derive ⟨4e12, 12.66, 1.0, 2.0, -1, -1, 180, 0.1, 0.01, 50⟩ fluxPV).dimZ = 1.0 ∧
    (fmx_dose4_derive ⟨4e12, 12.66, 1.0, 2.0, -1, -1, 180, 0.1, 0.01, 50⟩ fluxPV).dimY = 52.0 := by
  refine ⟨rfl, rfl, by norm_num [fmx_dose4_derive], by norm_num [fmx_dose4_derive], ?_, rfl, by norm_num [fmx_dose4_derive], by norm_num [fmx_dose4_derive], by norm_num [fmx_dose4_derive], by norm_num [fmx_dose4_derive], by norm_num [fmx_dose4_derive]⟩
  norm_num [fmx_dose4_derive, fmxPixelsPerMicron]

/-- Auxiliary: the scanner finds no match in text that contains no `'B'`
(every match of the bin pattern begins with the literal `"Bin"`). -/
theorem findAllBins_eq_nil_of_no_B :
    ∀ (fuel : ℕ) (t : Line), (∀ c ∈ t, c ≠ 'B') → findAllBins fuel t = [] := by
  intro fuel
  induction fuel with
  | zero => intro t _; cases t <;> simp [findAllBins]
  | succ n ih =>
    intro t ht
    cases t with
    | nil => simp [findAllBins]
    | cons c cs =>
      have hc : c ≠ 'B' := ht c (by simp)
      have hbc : ('B' == c) = false := by
        simp only [beq_eq_false_iff_ne]
        exact fun he => hc he.symm
      have hstr : strL "Bin" = 'B' :: 'i' :: 'n' :: [] := rfl
      have hmb : matchBin (c :: cs) = none := by
        simp [matchBin, hstr, litTok, hbc]
      simp only [findAllBins, hmb]
      exact ih cs fun d hd => ht d (by simp [hd])

/-- C8 counterexample: the parser is not line-oriented.  In the text
`"Bin 1,\n2.0 MGy upwards: 50"` no single line matches the bin pattern
(the parser applied to either line alone yields nothing), yet the parser
returns one entry, because the `\s+` of the pattern matches across the
line break.  This contradicts the claim that for every input text the
result is exactly the matching *lines*. -/
theorem C8_counterexample :
    splitNl (strL "Bin 1,\n2.0 MGy upwards: 50") =
      [strL "Bin 1,", strL "2.0 MGy upwards: 50"] ∧
    rd3d_parse_dose_histogram (strL "Bin 1,") = some [] ∧
    rd3d_parse_dose_histogram (strL "2.0 MGy upwards: 50") = some [] ∧
    rd3d_parse_dose_histogram (strL "Bin 1,\n2.0 MGy upwards: 50") =
      some [⟨1, strL "2.0 upwards", 50⟩] := by decide

/-- Auxiliary: `parseFloat` on a digits-dot-digits token. -/
theorem parseFloat_split {l i f : Line} (hs : splitDots l = [i, f])
    (hne : (i.isEmpty && f.isEmpty) = false) :
    parseFloat l = some ((parseNat i : ℚ) + (parseNat f : ℚ) / (10 : ℚ) ^ f.length) := by
  simp [parseFloat, hs, hne]

/-- C8 (amended): the histogram parser returns the leftmost
non-overlapping occurrences of the bin pattern in the whole text, in text
order, silently skipping non-matching text; since the pattern's
whitespace also matches line breaks, an occurrence need not lie within a
single line.  Zero occurrences yield an empty — not failing — result; in
particular any text without the letter `B`, and the empty text, parse to
the empty list.  The spec's example text yields exactly the two entries
`(1, "0.0 to 5.0", 12.50)` and `(2, "5.0 upwards", 87.50)`, in file
order, with surrounding non-matching lines skipped. -/
theorem C8_histogram_scan :
    rd3d_parse_dose_histogram
        (strL "Dose histogram:\nBin 1, 0.0 to 5.0 MGy: 12.50\nnoise\nBin 2, 5.0 MGy upwards: 87.50\n") =
      some [⟨1, strL "0.0 to 5.0", 12.50⟩, ⟨2, strL "5.0 upwards", 87.50⟩] ∧
    rd3d_parse_dose_histogram [] = some [] ∧
    (∀ t : Line, (∀ c ∈ t, c ≠ 'B') → rd3d_parse_dose_histogram t = some []) := by
  refine ⟨?_, by decide, ?_⟩
  · have hm : findAllBins
        (strL "Dose histogram:\nBin 1, 0.0 to 5.0 MGy: 12.50\nnoise\nBin 2, 5.0 MGy upwards: 87.50\n").length
        (strL "Dose histogram:\nBin 1, 0.0 to 5.0 MGy: 12.50\nnoise\nBin 2, 5.0 MGy upwards: 87.50\n") =
        [⟨strL "1", strL "0.0", some (strL "5.0"), strL "12.50"⟩,
         ⟨strL "2", strL "5.0", none, strL "87.50"⟩] := by decide
    have hf1 : parseFloat (strL "12.50") = some 12.50 := by
      have hs : splitDots (strL "12.50") = [['1', '2'], ['5', '0']] := by decide
      rw [parseFloat_split hs (by decide)]
      have h1 : parseNat ['1', '2'] = 12 := by decide
      have h2 : parseNat ['5', '0'] = 50 := by decide
      rw [h1, h2]
      norm_num
    have hf2 : parseFloat (strL "87.50") = some 87.50 := by
      have hs : splitDots (strL "87.50") = [['8', '7'], ['5', '0']] := by decide
      rw [parseFloat_split hs (by decide)]
      have h1 : parseNat ['8', '7'] = 87 := by decide
      have h2 : parseNat ['5', '0'] = 50 := by decide
      rw [h1, h2]
      norm_num
    have he1 : binEntryOf ⟨strL "1", strL "0.0", some (strL "5.0"), strL "12.50"⟩ =
        some ⟨1, strL "0.0 to 5.0", 12.50⟩ := by
      rw [binEntryOf, hf1]
      have hr : rangeOf ⟨strL "1", strL "0.0", some (strL "5.0"), strL "12.50"⟩ =
          strL "0.0 to 5.0" := by decide
      have hn : parseNat (strL "1") = 1 := by decide
      simp [hr, hn]
    have he2 : binEntryOf ⟨strL "2", strL "5.0", none, strL "87.50"⟩ =
        some ⟨2, strL "5.0 upwards", 87.50⟩ := by
      rw [binEntryOf, hf2]
      have hr : rangeOf ⟨strL "2", strL "5.0", none, strL "87.50"⟩ =
          strL "5.0 upwards" := by decide
      have hn : parseNat (strL "2") = 2 := by decide
      simp [hr, hn]
    rw [rd3d_parse_dose_histogram, hm]
    simp [binEntries, he1, he2]
  · intro t ht
    rw [rd3d_parse_dose_histogram, findAllBins_eq_nil_of_no_B t.length t ht]
    rfl

/-- C8 witness: a concrete `B`-free text parses to the empty result. -/
theorem C8_witness :
    rd3d_parse_dose_histogram (strL "no bins here 1.0 MGy") = some [] :=
  C8_histogram_scan.2.2 (strL "no bins here 1.0 MGy") (by decide)

/-- Auxiliary: a line starting with one character cannot start with a
different one. -/
theorem startswith_head_ne {c d : Char} (h : ¬ d = c) (x y : Line) :
    startswith (c :: x) (d :: y) = false := by
  simp [startswith, List.isPrefixOf, h]

/-- Auxiliary: `startswith_head_ne` with the head decompositions as
equations, for use on `strL`-headed appends. -/
theorem startswith_false_of_ne_head (a pre : Line) (c d : Char) (x y : Line)
    (ha : a = c :: x) (hp : pre = d :: y) (h : ¬ d = c) :
    startswith a pre = false := by
  subst ha; subst hp; exact startswith_head_ne h x y

/-- Auxiliary: a line starting with `c :: p` does not start with `d :: q`
when `d ≠ c`. -/
theorem startswith_ne_of_head {l : Line} {c : Char} {p : Line}
    (h : startswith l (c :: p) = true) {d : Char} {q : Line} (hne : ¬ d = c) :
    startswith l (d :: q) = false := by
  cases l with
  | nil => simp [startswith, List.isPrefixOf] at h
  | cons a as =>
    have hca : c = a := by
      have hh := h
      simp [startswith, List.isPrefixOf, Bool.and_eq_true] at hh
      exact hh.1
    subst hca
    exact startswith_head_ne hne as q

/-- Auxiliary: every line of the rewritten file is the replacement or an
original line. -/
theorem mem_replaceLineWrite {lines : List Line} {s r l : Line}
    (h : l ∈ replaceLineWrite lines s r) :
    l = r ∨ (l ∈ lines ∧ startswith l s = false) := by
  simp only [replaceLineWrite, List.mem_map] at h
  obtain ⟨a, ha, hfa⟩ := h
  by_cases hs : startswith a s = true
  · left; rw [← hfa, hs]; simp
  · right
    have hfa2 : a = l := by
      rw [← hfa]; simp [Bool.not_eq_true] at hs; simp [hs]
    rw [← hfa2]
    exact ⟨ha, by simp [Bool.not_eq_true] at hs; exact hs⟩

/-- Auxiliary: a line that does not match the keyword passes through the
rewrite unchanged. -/
theorem mem_replaceLineWrite_self {lines : List Line} {s r l : Line}
    (hl : l ∈ lines) (hs : startswith l s = false) :
    l ∈ replaceLineWrite lines s r := by
  have : (if startswith l s then r else l) ∈ replaceLineWrite lines s r :=
    List.mem_map_of_mem _ hl
  simpa [hs] using this

/-- Auxiliary: a matching member line makes `replaceLineFound` true. -/
theorem replaceLineFound_of_mem {lines : List Line} {s l : Line}
    (hl : l ∈ lines) (hs : startswith l s = true) :
    replaceLineFound lines s = true :=
  List.any_eq_true.mpr ⟨l, hl, hs⟩

/-- Auxiliary: a successful `rd3d_replaceLine` returns the rewrite. -/
theorem rd3d_replaceLine_ok {lines out : List Line} {s r : Line}
    (h : rd3d_replaceLine lines s r = .ok out) :
    out = replaceLineWrite lines s r := by
  unfold rd3d_replaceLine at h
  by_cases hf : replaceLineFound lines s = true
  · rw [if_pos hf] at h
    exact (Except.ok.inj h).symm
  · rw [if_neg hf] at h
    cases h

/-- Auxiliary: `applyPatches` distributes over list append. -/
theorem applyPatches_append (a b : List (Line × Line)) :
    ∀ lines : List Line, applyPatches lines (a ++ b) =
      (applyPatches lines a).bind fun m => applyPatches m b := by
  induction a with
  | nil => intro lines; rfl
  | cons pr ps ih =>
    intro lines
    obtain ⟨s, r⟩ := pr
    show applyPatches lines ((s, r) :: (ps ++ b)) = _
    rw [applyPatches]
    cases h : rd3d_replaceLine lines s r with
    | ok m => rw [applyPatches, h]; exact ih m
    | error e => rw [applyPatches, h]; rfl

/-- Auxiliary: one successful step of the patch sequence. -/
theorem applyPatches_cons_ok {lines m : List Line} {s r : Line} {ps : List (Line × Line)}
    (h : rd3d_replaceLine lines s r = .ok m) :
    applyPatches lines ((s, r) :: ps) = applyPatches m ps := by
  show (match rd3d_replaceLine lines s r with
    | .ok out => applyPatches out ps
    | .error e => .error e) = applyPatches m ps
  rw [h]

/-- Auxiliary: one failing step of the patch sequence. -/
theorem applyPatches_cons_error {lines : List Line} {s r e : Line} {ps : List (Line × Line)}
    (h : rd3d_replaceLine lines s r = .error e) :
    applyPatches lines ((s, r) :: ps) = .error e := by
  show (match rd3d_replaceLine lines s r with
    | .ok out => applyPatches out ps
    | .error e => .error e) = .error e
  rw [h]

/-- Auxiliary: a successful patch sequence preserves the invariant
"every line starting with `w` equals `wr`, and `wr` is present", provided
`wr` matches no keyword of the sequence and no replacement of the
sequence starts with `w`. -/
theorem applyPatches_preserve (w wr : Line) :
    ∀ (ps : List (Line × Line)) (m out : List Line),
      applyPatches m ps = .ok out →
      (∀ pr ∈ ps, startswith wr pr.1 = false ∧ startswith pr.2 w = false) →
      ((∀ l ∈ m, startswith l w = true → l = wr) ∧ wr ∈ m) →
      (∀ l ∈ out, startswith l w = true → l = wr) ∧ wr ∈ out := by
  intro ps
  induction ps with
  | nil =>
    intro m out hok _ hP
    have hmo : m = out := by
      rw [applyPatches] at hok
      exact Except.ok.inj hok
    rw [← hmo]
    exact hP
  | cons pr ps ih =>
    intro m out hok hps hP
    obtain ⟨s, r⟩ := pr
    rw [applyPatches] at hok
    cases hstep : rd3d_replaceLine m s r with
    | error e => rw [hstep] at hok; cases hok
    | ok m1 =>
      rw [hstep] at hok
      have hm1 : m1 = replaceLineWrite m s r := rd3d_replaceLine_ok hstep
      have hsr := hps (s, r) (by simp)
      have hP1 : (∀ l ∈ m1, startswith l w = true → l = wr) ∧ wr ∈ m1 := by
        constructor
        · intro l hl hlw
          rw [hm1] at hl
          rcases mem_replaceLineWrite hl with hlr | ⟨hlm, _⟩
          · rw [hlr] at hlw
            rw [hsr.2] at hlw
            cases hlw
          · exact hP.1 l hlm hlw
        · rw [hm1]
          exact mem_replaceLineWrite_self hP.2 hsr.1
      exact ih m1 out hok (fun q hq => hps q (by simp [hq])) hP1

/-- C9 (confirmed): the beam-type directive is patched with the literal
search keyword `"TYPE GAUSSIAN"` (rd3dgui.py line 234), so for every
template that contains the FLUX and ENERGY directives and a TYPE
directive of any other beam type (e.g. a line starting `"TYPE TOPHAT"`)
but no line starting with `"TYPE GAUSSIAN"`, the `rd3d_calc4` patch
sequence aborts with the keyword-not-found `ValueError` naming
`"TYPE GAUSSIAN"`, even though a TYPE directive is present. -/
theorem C9_type_gaussian_keyword (p : Rd3dCalcParams) (pdbLine : Line) (lines : List Line)
    (hflux : ∃ l ∈ lines, startswith l (strL "FLUX") = true)
    (henergy : ∃ l ∈ lines, startswith l (strL "ENERGY") = true)
    (htype : ∃ l ∈ lines, startswith l (strL "TYPE TOPHAT") = true)
    (hnog : ∀ l ∈ lines, startswith l (strL "TYPE GAUSSIAN") = false) :
    applyPatches lines (calc4Patches p pdbLine) =
      .error (replaceErrMsg (strL "TYPE GAUSSIAN")) := by
  obtain ⟨lf, hlf, hlfs⟩ := hflux
  obtain ⟨le, hle, hles⟩ := henergy
  -- Step 1: the FLUX patch succeeds.
  have hf1 : replaceLineFound lines (strL "FLUX") = true :=
    replaceLineFound_of_mem hlf hlfs
  have hstep1 : rd3d_replaceLine lines (strL "FLUX") (strL "FLUX " ++ fmtSci2 p.flux ++ strL "\n") =
      .ok (replaceLineWrite lines (strL "FLUX") (strL "FLUX " ++ fmtSci2 p.flux ++ strL "\n")) := by
    rw [rd3d_replaceLine, if_pos hf1]
  -- The ENERGY line survives the FLUX patch.
  have hlef : startswith le (strL "FLUX") = false := by
    have hE : strL "ENERGY" = 'E' :: strL "NERGY" := rfl
    have hF : strL "FLUX" = 'F' :: strL "LUX" := rfl
    rw [hE] at hles
    rw [hF]
    exact startswith_ne_of_head hles (by decide)
  have hle1 : le ∈ replaceLineWrite lines (strL "FLUX") (strL "FLUX " ++ fmtSci2 p.flux ++ strL "\n") :=
    mem_replaceLineWrite_self hle hlef
  -- Step 2: the ENERGY patch succeeds.
  have hf2 : replaceLineFound
      (replaceLineWrite lines (strL "FLUX") (strL "FLUX " ++ fmtSci2 p.flux ++ strL "\n"))
      (strL "ENERGY") = true :=
    replaceLineFound_of_mem hle1 hles
  have hstep2 : rd3d_replaceLine
      (replaceLineWrite lines (strL "FLUX") (strL "FLUX " ++ fmtSci2 p.flux ++ strL "\n"))
      (strL "ENERGY") (strL "ENERGY " ++ fmtFixed 2 p.energy ++ strL "\n") =
      .ok (replaceLineWrite
        (replaceLineWrite lines (strL "FLUX") (strL "FLUX " ++ fmtSci2 p.flux ++ strL "\n"))
        (strL "ENERGY") (strL "ENERGY " ++ fmtFixed 2 p.energy ++ strL "\n")) := by
    rw [rd3d_replaceLine, if_pos hf2]
  -- Step 3: no line of the twice-patched file starts with "TYPE GAUSSIAN".
  have hTG : strL "TYPE GAUSSIAN" = 'T' :: strL "YPE GAUSSIAN" := rfl
  have hnog2 : ∀ l ∈ replaceLineWrite
      (replaceLineWrite lines (strL "FLUX") (strL "FLUX " ++ fmtSci2 p.flux ++ strL "\n"))
      (strL "ENERGY") (strL "ENERGY " ++ fmtFixed 2 p.energy ++ strL "\n"),
      startswith l (strL "TYPE GAUSSIAN") = false := by
    intro l hl
    rcases mem_replaceLineWrite hl with hlr | ⟨hl1, _⟩
    · rw [hlr]
      exact startswith_false_of_ne_head _ _ 'E' 'T' _ _ rfl hTG (by decide)
    · rcases mem_replaceLineWrite hl1 with hlr | ⟨hl0, _⟩
      · rw [hlr]
        exact startswith_false_of_ne_head _ _ 'F' 'T' _ _ rfl hTG (by decide)
      · exact hnog l hl0
  have hf3 : replaceLineFound
      (replaceLineWrite
        (replaceLineWrite lines (strL "FLUX") (strL "FLUX " ++ fmtSci2 p.flux ++ strL "\n"))
        (strL "ENERGY") (strL "ENERGY " ++ fmtFixed 2 p.energy ++ strL "\n"))
      (strL "TYPE GAUSSIAN") = false := by
    rw [replaceLineFound, List.any_eq_false]
    intro l hl
    simp [hnog2 l hl]
  have hstep3 : rd3d_replaceLine
      (replaceLineWrite
        (replaceLineWrite lines (strL "FLUX") (strL "FLUX " ++ fmtSci2 p.flux ++ strL "\n"))
        (strL "ENERGY") (strL "ENERGY " ++ fmtFixed 2 p.energy ++ strL "\n"))
      (strL "TYPE GAUSSIAN") (strL "TYPE " ++ p.beamType ++ strL "\n") =
      .error (replaceErrMsg (strL "TYPE GAUSSIAN")) := by
    rw [rd3d_replaceLine, if_neg (by rw [hf3]; exact Bool.false_ne_true)]
  show applyPatches lines
      ((strL "FLUX", strL "FLUX " ++ fmtSci2 p.flux ++ strL "\n") ::
       (strL "ENERGY", strL "ENERGY " ++ fmtFixed 2 p.energy ++ strL "\n") ::
       (strL "TYPE GAUSSIAN", strL "TYPE " ++ p.beamType ++ strL "\n") :: _) = _
  rw [applyPatches_cons_ok hstep1, applyPatches_cons_ok hstep2,
    applyPatches_cons_error hstep3]

/-- C9 witness: a concrete four-line template with a `TYPE TOPHAT`
directive but no `TYPE GAUSSIAN` line. -/
theorem C9_witness :
    (∃ l ∈ [strL "FLUX 0\n", strL "ENERGY 0\n", strL "TYPE TOPHAT\n", strL "WEDGE 0 0\n"],
      startswith l (strL "FLUX") = true) ∧
    (∃ l ∈ [strL "FLUX 0\n", strL "ENERGY 0\n", strL "TYPE TOPHAT\n", strL "WEDGE 0 0\n"],
      startswith l (strL "ENERGY") = true) ∧
    (∃ l ∈ [strL "FLUX 0\n", strL "ENERGY 0\n", strL "TYPE TOPHAT\n", strL "WEDGE 0 0\n"],
      startswith l (strL "TYPE TOPHAT") = true) ∧
    (∀ l ∈ [strL "FLUX 0\n", strL "ENERGY 0\n", strL "TYPE TOPHAT\n", strL "WEDGE 0 0\n"],
      startswith l (strL "TYPE GAUSSIAN") = false) ∧
    applyPatches [strL "FLUX 0\n", strL "ENERGY 0\n", strL "TYPE TOPHAT\n", strL "WEDGE 0 0\n"]
      (calc4Patches ⟨1, 1, strL "TOPHAT", 1, 1, 1, 1, 1, 1, 0, 0, 0, 0, 0, 0, 1, 1, 1, 1, 2⟩
        (strL "PDB 2vb1.pdb\n")) =
      .error (replaceErrMsg (strL "TYPE GAUSSIAN")) :=
  ⟨by decide, by decide, by decide, by decide,
    C9_type_gaussian_keyword ⟨1, 1, strL "TOPHAT", 1, 1, 1, 1, 1, 1, 0, 0, 0, 0, 0, 0, 1, 1, 1, 1, 2⟩
      (strL "PDB 2vb1.pdb\n") _ (by decide) (by decide) (by decide) (by decide)⟩

/-- C10 (confirmed): on every successful run of the `rd3d_calc4` patch
sequence, every line of the generated input file that starts with `WEDGE`
is exactly `"WEDGE 0 <range>"` — the start angle is the hard-coded `0` of
source line 237 — and such a line is present; no parameter of the
pipeline influences anything but the `<range>` part of that line. -/
theorem C10_wedge_zero_start (p : Rd3dCalcParams) (binDir : Line) (ref : StructureRef)
    (lines out : List Line)
    (hok : applyPatches lines (calc4Patches p (pdbReplacementLine binDir ref)) = .ok out) :
    (∀ l ∈ out, startswith l (strL "WEDGE") = true →
      l = strL "WEDGE 0 " ++ fmtFixed 1 p.wedge ++ strL "\n") ∧
    (strL "WEDGE 0 " ++ fmtFixed 1 p.wedge ++ strL "\n") ∈ out := by
  have hsplit : calc4Patches p (pdbReplacementLine binDir ref) =
      [ (strL "FLUX", strL "FLUX " ++ fmtSci2 p.flux ++ strL "\n"),
        (strL "ENERGY", strL "ENERGY " ++ fmtFixed 2 p.energy ++ strL "\n"),
        (strL "TYPE GAUSSIAN", strL "TYPE " ++ p.beamType ++ strL "\n"),
        (strL "FWHM", strL "FWHM " ++ fmtFixed 1 p.fwhmX ++ strL " " ++ fmtFixed 1 p.fwhmY ++ strL "\n"),
        (strL "COLLIMATION", strL "COLLIMATION RECTANGULAR " ++ fmtFixed 1 p.collimationX ++ strL " " ++ fmtFixed 1 p.collimationY ++ strL "\n") ] ++
      (strL "WEDGE", strL "WEDGE 0 " ++ fmtFixed 1 p.wedge ++ strL "\n") ::
      [ (strL "EXPOSURETIME", strL "EXPOSURETIME " ++ fmtFixed 3 p.exposureTime ++ strL "\n"),
        (strL "TRANSLATEPERDEGREE", strL "TRANSLATEPERDEGREE " ++ fmtFixed 4 p.translatePerDegX ++ strL " " ++ fmtFixed 4 p.translatePerDegY ++ strL " " ++ fmtFixed 4 p.translatePerDegZ ++ strL "\n"),
        (strL "DIMENSION", strL "DIMENSION " ++ fmtFixed 1 p.dimX ++ strL " " ++ fmtFixed 1 p.dimY ++ strL " " ++ fmtFixed 1 p.dimZ ++ strL "\n"),
        (strL "PIXELSPERMICRON", strL "PIXELSPERMICRON " ++ fmtFixed 1 p.pixelsPerMicron ++ strL "\n"),
        (strL "ANGULARRESOLUTION", strL "ANGULARRESOLUTION " ++ fmtFixed 1 p.angularResolution ++ strL "\n"),
        (strL "STARTOFFSET", strL "STARTOFFSET " ++ fmtFixed 6 p.startOffsetX ++ strL " " ++ fmtFixed 6 p.startOffsetY ++ strL " " ++ fmtFixed 6 p.startOffsetZ ++ strL "\n"),
        (strL "PDB", pdbReplacementLine binDir ref) ] := rfl
  rw [hsplit, applyPatches_append] at hok
  cases hpre : applyPatches lines
      [ (strL "FLUX", strL "FLUX " ++ fmtSci2 p.flux ++ strL "\n"),
        (strL "ENERGY", strL "ENERGY " ++ fmtFixed 2 p.energy ++ strL "\n"),
        (strL "TYPE GAUSSIAN", strL "TYPE " ++ p.beamType ++ strL "\n"),
        (strL "FWHM", strL "FWHM " ++ fmtFixed 1 p.fwhmX ++ strL " " ++ fmtFixed 1 p.fwhmY ++ strL "\n"),
        (strL "COLLIMATION", strL "COLLIMATION RECTANGULAR " ++ fmtFixed 1 p.collimationX ++ strL " " ++ fmtFixed 1 p.collimationY ++ strL "\n") ] with
  | error e => rw [hpre] at hok; simp [Except.bind] at hok
  | ok mid =>
    rw [hpre] at hok
    simp only [Except.bind] at hok
    cases hw : rd3d_replaceLine mid (strL "WEDGE") (strL "WEDGE 0 " ++ fmtFixed 1 p.wedge ++ strL "\n") with
    | error e => rw [applyPatches_cons_error hw] at hok; cases hok
    | ok mid2 =>
      rw [applyPatches_cons_ok hw] at hok
      have hmid2 : mid2 = replaceLineWrite mid (strL "WEDGE")
          (strL "WEDGE 0 " ++ fmtFixed 1 p.wedge ++ strL "\n") := rd3d_replaceLine_ok hw
      have hfound : replaceLineFound mid (strL "WEDGE") = true := by
        by_contra hnf
        unfold rd3d_replaceLine at hw
        rw [if_neg hnf] at hw
        cases hw
      have hWcons : strL "WEDGE" = 'W' :: strL "EDGE" := rfl
      have hP : (∀ l ∈ mid2, startswith l (strL "WEDGE") = true →
          l = strL "WEDGE 0 " ++ fmtFixed 1 p.wedge ++ strL "\n") ∧
          (strL "WEDGE 0 " ++ fmtFixed 1 p.wedge ++ strL "\n") ∈ mid2 := by
        constructor
        · intro l hl hlw
          rw [hmid2] at hl
          rcases mem_replaceLineWrite hl with h | ⟨_, hns⟩
          · exact h
          · rw [hns] at hlw; cases hlw
        · obtain ⟨a, ha, has⟩ := List.any_eq_true.mp hfound
          rw [hmid2]
          have hmem : (if startswith a (strL "WEDGE") then
              strL "WEDGE 0 " ++ fmtFixed 1 p.wedge ++ strL "\n" else a) ∈
              replaceLineWrite mid (strL "WEDGE")
                (strL "WEDGE 0 " ++ fmtFixed 1 p.wedge ++ strL "\n") :=
            List.mem_map_of_mem _ ha
          simpa [has] using hmem
      have hpost : ∀ pr ∈
          [ (strL "EXPOSURETIME", strL "EXPOSURETIME " ++ fmtFixed 3 p.exposureTime ++ strL "\n"),
            (strL "TRANSLATEPERDEGREE", strL "TRANSLATEPERDEGREE " ++ fmtFixed 4 p.translatePerDegX ++ strL " " ++ fmtFixed 4 p.translatePerDegY ++ strL " " ++ fmtFixed 4 p.translatePerDegZ ++ strL "\n"),
            (strL "DIMENSION", strL "DIMENSION " ++ fmtFixed 1 p.dimX ++ strL " " ++ fmtFixed 1 p.dimY ++ strL " " ++ fmtFixed 1 p.dimZ ++ strL "\n"),
            (strL "PIXELSPERMICRON", strL "PIXELSPERMICRON " ++ fmtFixed 1 p.pixelsPerMicron ++ strL "\n"),
            (strL "ANGULARRESOLUTION", strL "ANGULARRESOLUTION " ++ fmtFixed 1 p.angularResolution ++ strL "\n"),
            (strL "STARTOFFSET", strL "STARTOFFSET " ++ fmtFixed 6 p.startOffsetX ++ strL " " ++ fmtFixed 6 p.startOffsetY ++ strL " " ++ fmtFixed 6 p.startOffsetZ ++ strL "\n"),
            (strL "PDB", pdbReplacementLine binDir ref) ],
          startswith (strL "WEDGE 0 " ++ fmtFixed 1 p.wedge ++ strL "\n") pr.1 = false ∧
          startswith pr.2 (strL "WEDGE") = false := by
        intro pr hpr
        simp only [List.mem_cons, List.not_mem_nil, or_false] at hpr
        rcases hpr with h | h | h | h | h | h | h <;> rw [h]
        · exact ⟨startswith_false_of_ne_head _ _ 'W' 'E' _ _ rfl rfl (by decide),
            startswith_false_of_ne_head _ _ 'E' 'W' _ _ rfl hWcons (by decide)⟩
        · exact ⟨startswith_false_of_ne_head _ _ 'W' 'T' _ _ rfl rfl (by decide),
            startswith_false_of_ne_head _ _ 'T' 'W' _ _ rfl hWcons (by decide)⟩
        · exact ⟨startswith_false_of_ne_head _ _ 'W' 'D' _ _ rfl rfl (by decide),
            startswith_false_of_ne_head _ _ 'D' 'W' _ _ rfl hWcons (by decide)⟩
        · exact ⟨startswith_false_of_ne_head _ _ 'W' 'P' _ _ rfl rfl (by decide),
            startswith_false_of_ne_head _ _ 'P' 'W' _ _ rfl hWcons (by decide)⟩
        · exact ⟨startswith_false_of_ne_head _ _ 'W' 'A' _ _ rfl rfl (by decide),
            startswith_false_of_ne_head _ _ 'A' 'W' _ _ rfl hWcons (by decide)⟩
        · exact ⟨startswith_false_of_ne_head _ _ 'W' 'S' _ _ rfl rfl (by decide),
            startswith_false_of_ne_head _ _ 'S' 'W' _ _ rfl hWcons (by decide)⟩
        · refine ⟨startswith_false_of_ne_head _ _ 'W' 'P' _ _ rfl rfl (by decide), ?_⟩
          cases ref with
          | localFile path =>
            exact startswith_false_of_ne_head _ _ 'P' 'W' _ _ rfl hWcons (by decide)
          | registryCode code =>
            exact startswith_false_of_ne_head _ _ 'P' 'W' _ _ rfl hWcons (by decide)
          | fallbackDefault =>
            exact startswith_false_of_ne_head _ _ 'P' 'W' _ _ rfl hWcons (by decide)
      exact applyPatches_preserve (strL "WEDGE")
        (strL "WEDGE 0 " ++ fmtFixed 1 p.wedge ++ strL "\n") _ mid2 out hok hpost hP

/-- C10 witness: a concrete thirteen-line template patched with concrete
parameters (wedge = 1°); the generated file's only WEDGE line is
`"WEDGE 0 1.0"`. -/
theorem C10_witness :
    applyPatches
      [strL "FLUX x\n", strL "ENERGY x\n", strL "TYPE GAUSSIAN\n", strL "FWHM x\n",
       strL "COLLIMATION x\n", strL "WEDGE x\n", strL "EXPOSURETIME x\n",
       strL "TRANSLATEPERDEGREE x\n", strL "DIMENSION x\n", strL "PIXELSPERMICRON x\n",
       strL "ANGULARRESOLUTION x\n", strL "STARTOFFSET x\n", strL "PDB x\n"]
      (calc4Patches ⟨1, 1, strL "GAUSSIAN", 1, 1, 1, 1, 1, 1, 0, 0, 0, 0, 0, 0, 1, 1, 1, 1, 2⟩
        (pdbReplacementLine (strL "bin") .fallbackDefault)) =
      .ok [strL "FLUX 1.00e+00\n", strL "ENERGY 1.00\n", strL "TYPE GAUSSIAN\n",
        strL "FWHM 1.0 1.0\n", strL "COLLIMATION RECTANGULAR 1.0 1.0\n", strL "WEDGE 0 1.0\n",
        strL "EXPOSURETIME 1.000\n", strL "TRANSLATEPERDEGREE 0.0000 0.0000 0.0000\n",
        strL "DIMENSION 1.0 1.0 1.0\n", strL "PIXELSPERMICRON 1.0\n",
        strL "ANGULARRESOLUTION 2.0\n", strL "STARTOFFSET 0.000000 0.000000 0.000000\n",
        strL "PDB bin/2vb1.pdb\n"] ∧
    ((∀ l ∈ [strL "FLUX 1.00e+00\n", strL "ENERGY 1.00\n", strL "TYPE GAUSSIAN\n",
        strL "FWHM 1.0 1.0\n", strL "COLLIMATION RECTANGULAR 1.0 1.0\n", strL "WEDGE 0 1.0\n",
        strL "EXPOSURETIME 1.000\n", strL "TRANSLATEPERDEGREE 0.0000 0.0000 0.0000\n",
        strL "DIMENSION 1.0 1.0 1.0\n", strL "PIXELSPERMICRON 1.0\n",
        strL "ANGULARRESOLUTION 2.0\n", strL "STARTOFFSET 0.000000 0.000000 0.000000\n",
        strL "PDB bin/2vb1.pdb\n"],
        startswith l (strL "WEDGE") = true → l = strL "WEDGE 0 1.0\n") ∧
      strL "WEDGE 0 1.0\n" ∈ [strL "FLUX 1.00e+00\n", strL "ENERGY 1.00\n", strL "TYPE GAUSSIAN\n",
        strL "FWHM 1.0 1.0\n", strL "COLLIMATION RECTANGULAR 1.0 1.0\n", strL "WEDGE 0 1.0\n",
        strL "EXPOSURETIME 1.000\n", strL "TRANSLATEPERDEGREE 0.0000 0.0000 0.0000\n",
        strL "DIMENSION 1.0 1.0 1.0\n", strL "PIXELSPERMICRON 1.0\n",
        strL "ANGULARRESOLUTION 2.0\n", strL "STARTOFFSET 0.000000 0.000000 0.000000\n",
        strL "PDB bin/2vb1.pdb\n"]) :=
  ⟨by decide,
    C10_wedge_zero_start ⟨1, 1, strL "GAUSSIAN", 1, 1, 1, 1, 1, 1, 0, 0, 0, 0, 0, 0, 1, 1, 1, 1, 2⟩
      (strL "bin") .fallbackDefault
      [strL "FLUX x\n", strL "ENERGY x\n", strL "TYPE GAUSSIAN\n", strL "FWHM x\n",
       strL "COLLIMATION x\n", strL "WEDGE x\n", strL "EXPOSURETIME x\n",
       strL "TRANSLATEPERDEGREE x\n", strL "DIMENSION x\n", strL "PIXELSPERMICRON x\n",
       strL "ANGULARRESOLUTION x\n", strL "STARTOFFSET x\n", strL "PDB x\n"]
      [strL "FLUX 1.00e+00\n", strL "ENERGY 1.00\n", strL "TYPE GAUSSIAN\n",
        strL "FWHM 1.0 1.0\n", strL "COLLIMATION RECTANGULAR 1.0 1.0\n", strL "WEDGE 0 1.0\n",
        strL "EXPOSURETIME 1.000\n", strL "TRANSLATEPERDEGREE 0.0000 0.0000 0.0000\n",
        strL "DIMENSION 1.0 1.0 1.0\n", strL "PIXELSPERMICRON 1.0\n",
        strL "ANGULARRESOLUTION 2.0\n", strL "STARTOFFSET 0.000000 0.000000 0.000000\n",
        strL "PDB bin/2vb1.pdb\n"] (by decide)⟩
